import Mathlib

/-!
Shallow embedding of `parse_flv.py`, a Flash-Video (FLV) dump tool.

The byte source is a `Cursor`: an immutable list of bytes together with a read
position, mirroring the Python binary file object.  Reads that feed
`struct.unpack` fail on short input (`readExact`, modelling `struct.error`);
plain `read(n)` calls used for string payloads return whatever is available
(`readUpTo`).  The module-level mutable counters `_tag_count` and `_offset`
become an explicit `Globals` value threaded through the parsers; the text
written to the output file becomes a list of `Rec` records, one per written
label/value line (tab expansion and newline separators are presentation only
and are not modelled).
-/

/-- Decode errors of the embedded program: `eof` models a `struct.error` from
unpacking a short read, `invalidSeek` an `IOError` from seeking before the
start of the file, and `keyError k` a Python `KeyError` on a dict lookup with
key `k`.  `fuel` is only produced by the fuel-indexed loops when their fuel
runs out; callers always supply more fuel than the loop can consume. -/
inductive Err where
  | eof
  | invalidSeek
  | keyError (k : Nat)
  | fuel
deriving Repr, DecidableEq

/-- The byte source with its current read position (a Python file object
opened in binary mode). -/
structure Cursor where
  data : List Nat
  pos : Nat
deriving Repr, DecidableEq

/-- Values carried by output records.  An 8-byte IEEE-754 double read by
`struct.unpack` with format `d` is kept as its raw big-endian bytes
(constructor `d`); no claim depends on the numeric value of a double. -/
inductive Val where
  | n (x : Nat)
  | s (bs : List Nat)
  | d (bs : List Nat)
  | name (s : String)
deriving Repr, DecidableEq

/-- One line written to the output file, abstracted to its label and value.
Tag-header lines get dedicated constructors so that the per-tag metadata can
be recovered from a record stream by pattern matching. -/
inductive Rec where
  | headerLine
  | offset (n : Nat)
  | tagNo (n : Nat)
  | tagType (s : String)
  | dataSize (n : Nat)
  | timestamp (n : Nat)
  | timestampExt (n : Nat)
  | streamId (n : Nat)
  | prevTagSize (n : Nat)
  | field (label : String) (v : Val)
  | prop (title : List Nat) (v : Val)
  | sub (title : List Nat)
  | keyFrameNum (n : Nat)
  | keyframe (i : Nat) (v : Val)
deriving Repr, DecidableEq

/-- The module-level mutable state of `parse_flv.py`: `_tag_count` and
`_offset`. -/
structure Globals where
  tagCount : Nat
  offset : Nat
deriving Repr, DecidableEq

/-- Big-endian value of a byte string, as computed by `struct.unpack` with
formats `>B`, `>H`, `>I` (a 3-byte read is prefixed by a zero byte in the
source, which does not change this value). -/
def beVal (bs : List Nat) : Nat := bs.foldl (fun a b => a * 256 + b) 0

/-- Models `read(n)` whose result feeds `struct.unpack`: a short read makes the
unpack raise `struct.error`, modelled as `Err.eof`. -/
def readExact (n : Nat) (c : Cursor) : Except Err (List Nat × Cursor) :=
  if c.pos + n ≤ c.data.length then
    Except.ok ((c.data.drop c.pos).take n, ⟨c.data, c.pos + n⟩)
  else Except.error Err.eof

/-- Models `read(n)` used directly as a byte string: returns up to `n` bytes and
never fails (Python file semantics). -/
def readUpTo (n : Nat) (c : Cursor) : List Nat × Cursor :=
  ((c.data.drop c.pos).take n,
   ⟨c.data, max c.pos (min (c.pos + n) c.data.length)⟩)

/-- Models `seek(d, 1)`: relative seek; seeking before the start of the file raises,
seeking past the end is permitted. -/
def seekRel (d : Int) (c : Cursor) : Except Err Cursor :=
  if (c.pos : Int) + d < 0 then Except.error Err.invalidSeek
  else Except.ok ⟨c.data, ((c.pos : Int) + d).toNat⟩

/-- Models `has_next_tag`: read one byte; if non-empty seek back one and report
`True`, else report `False`. -/
def has_next_tag (c : Cursor) : Bool × Cursor :=
  let r := readUpTo 1 c
  if r.1.length = 1 then (true, ⟨r.2.data, r.2.pos - 1⟩)
  else (false, r.2)

/-- Models `is_end_marker`: unpack 3 bytes (zero-prefixed) as a big-endian integer,
seek back 3 in either case, and report whether the value is 9. -/
def is_end_marker (c : Cursor) : Except Err (Bool × Cursor) := do
  let (bs, c1) ← readExact 3 c
  if beVal bs = 9 then do
    let c2 ← seekRel (-3) c1
    return (true, c2)
  else do
    let c2 ← seekRel (-3) c1
    return (false, c2)

/-- Models `parse_pre_tag_size`: unpack 4 bytes big-endian and write the value;
no comparison with any expected size is made. -/
def parse_pre_tag_size (c : Cursor) : Except Err (List Rec × Cursor) := do
  let (bs, c1) ← readExact 4 c
  return ([Rec.prevTagSize (beVal bs)], c1)

/-- Models `int(type_flags[0:5])`: the first five binary digits of the flags byte
parsed back as a DECIMAL number (a quirk of the source, kept faithfully). -/
def flagsReserved1 (f : Nat) : Nat :=
  (f / 128 % 2) * 10000 + (f / 64 % 2) * 1000 + (f / 32 % 2) * 100 +
    (f / 16 % 2) * 10 + f / 8 % 2

/-- Models `parse_file_header`: signature (3 × `read(1)`), version, flag bits,
data offset, then the first PreviousTagSize; finally
`_offset += data_offset + 4`. -/
def parse_file_header (g : Globals) (c : Cursor) :
    Except Err (List Rec × Globals × Cursor) := do
  let r1 := readUpTo 1 c
  let r2 := readUpTo 1 r1.2
  let r3 := readUpTo 1 r2.2
  let (vb, c) ← readExact 1 r3.2
  let (fb, c) ← readExact 1 c
  let f := beVal fb
  let (o4, c) ← readExact 4 c
  let dataOffset := beVal o4
  let (prs, c) ← parse_pre_tag_size c
  let recs := [Rec.headerLine, Rec.offset g.offset,
    Rec.field "Signature" (Val.s (r1.1 ++ r2.1 ++ r3.1)),
    Rec.field "Version" (Val.n (beVal vb)),
    Rec.field "TypeFlagsReserved" (Val.n (flagsReserved1 f)),
    Rec.field "TypeFlagsAudio" (Val.n (f / 4 % 2)),
    Rec.field "TypeFlagsReserved" (Val.n (f / 2 % 2)),
    Rec.field "TypeFlagsVideo" (Val.n (f % 2)),
    Rec.field "DataOffset" (Val.n dataOffset)] ++ prs
  return (recs, { g with offset := g.offset + dataOffset + 4 }, c)

/-- Models `_tag_type_dict = {8: 'Audio', 9: 'Video', 18: 'Script'}`. -/
def tagTypeName : Nat → Option String
  | 8 => some "Audio"
  | 9 => some "Video"
  | 18 => some "Script"
  | _ => none

/-- A Python dict lookup `d[k]`: raises `KeyError` when the key is absent. -/
def lookupOrKeyError (f : Nat → Option String) (k : Nat) : Except Err String :=
  match f k with
  | some s => Except.ok s
  | none => Except.error (Err.keyError k)

/-- A Python dict lookup wrapped in `try/except KeyError`, degrading to
`'unknown <code>'`. -/
def lookupOrUnknown (f : Nat → Option String) (k : Nat) : String :=
  match f k with
  | some s => s
  | none => "unknown " ++ toString k

/-- Models `parse_tag_header`: 11 bytes (type, 24-bit size, 24-bit timestamp, 8-bit
extended timestamp, 24-bit stream id); writing the `TagType` line looks the
type byte up in `_tag_type_dict`, raising `KeyError` for an unknown type;
finally `_offset += 11 + data_size_int + 4`. -/
def parse_tag_header (g : Globals) (c : Cursor) :
    Except Err (List Rec × Nat × Globals × Cursor) := do
  let (b1, c) ← readExact 1 c
  let tagTypeInt := beVal b1
  let (b3, c) ← readExact 3 c
  let dataSizeInt := beVal b3
  let (t3, c) ← readExact 3 c
  let (e1, c) ← readExact 1 c
  let (s3, c) ← readExact 3 c
  let nm ← lookupOrKeyError tagTypeName tagTypeInt
  let recs := [Rec.offset g.offset, Rec.tagType nm, Rec.dataSize dataSizeInt,
    Rec.timestamp (beVal t3), Rec.timestampExt (beVal e1),
    Rec.streamId (beVal s3)]
  return (recs, dataSizeInt, { g with offset := g.offset + 11 + dataSizeInt + 4 }, c)

/-- Models `audio_dict['SoundFormat']`. -/
def soundFormatName : Nat → Option String
  | 0 => some "Linear PCM, platform endian"
  | 1 => some "ADPCM"
  | 2 => some "MP3"
  | 3 => some "Linear PCM, little endian"
  | 4 => some "Nellymoser 16-kHz mono"
  | 5 => some "Nellymoser 8-kHz mono"
  | 6 => some "Nellymoser"
  | 7 => some "G.711 A-law logarithmic PCM"
  | 8 => some "G.711 mu-law logarithmic PCM"
  | 9 => some "reserved"
  | 10 => some "AAC"
  | 11 => some "Speex"
  | 14 => some "MP3 8-Khz"
  | 15 => some "Device-specific sound\x7d"
  | _ => none

/-- Models `audio_dict['SoundRate']`. -/
def soundRateName : Nat → Option String
  | 0 => some "5.5-kHz"
  | 1 => some "11-kHz"
  | 2 => some "22-kHz"
  | 3 => some "44-kHz"
  | _ => none

/-- Models `audio_dict['SoundSize']`. -/
def soundSizeName : Nat → Option String
  | 0 => some "snd8Bit"
  | 1 => some "snd16Bit"
  | _ => none

/-- Models `audio_dict['SoundType']`. -/
def soundTypeName : Nat → Option String
  | 0 => some "sndMono"
  | 1 => some "sndStereo"
  | _ => none

/-- Models `acc_packet_type_dict = {0: 'AAC sequence header', 1: ' AAC raw'}`
(the leading blank in the second entry is in the source). -/
def aacPacketTypeName : Nat → Option String
  | 0 => some "AAC sequence header"
  | 1 => some " AAC raw"
  | _ => none

/-- Models `parse_audio`: tag header, then one flags byte split 4+2+1+1 bits, each
sub-field looked up WITHOUT a `try/except` (a missing key raises `KeyError`);
then — unconditionally, whatever the sound format — one further byte looked
up in the AAC packet-type dict; finally `seek(data_size - 1 - 1, 1)`. -/
def parse_audio (g : Globals) (c : Cursor) :
    Except Err (List Rec × Globals × Cursor) := do
  let (hrecs, dataSizeInt, g, c) ← parse_tag_header g c
  let (fb, c) ← readExact 1 c
  let a := beVal fb
  let sfn ← lookupOrKeyError soundFormatName (a / 16)
  let srn ← lookupOrKeyError soundRateName (a / 4 % 4)
  let ssn ← lookupOrKeyError soundSizeName (a / 2 % 2)
  let stn ← lookupOrKeyError soundTypeName (a % 2)
  let (ab, c) ← readExact 1 c
  let an ← lookupOrKeyError aacPacketTypeName (beVal ab)
  let recs := hrecs ++
    [Rec.field "SoundFormat" (Val.name sfn),
     Rec.field "SoundRate" (Val.name srn),
     Rec.field "SoundSize" (Val.name ssn),
     Rec.field "SoundType" (Val.name stn),
     Rec.field "ACC Packet Type" (Val.name an)]
  let c ← seekRel ((dataSizeInt : Int) - 1 - 1) c
  return (recs, g, c)

/-- Models `video_dict['FrameType']`. -/
def frameTypeName : Nat → Option String
  | 1 => some "keyframe (for AVC, a seekable frame)"
  | 2 => some "inter frame (for AVC, a non-seekable frame)"
  | 3 => some "disposable inter frame (H.263 only)"
  | 4 => some "generated keyframe (reserved for server use only)"
  | 5 => some "video info/command frame"
  | _ => none

/-- Models `video_dict['CodecID']`. -/
def codecIdName : Nat → Option String
  | 1 => some "JPEG (currently unused)"
  | 2 => some "Sorenson H.263"
  | 3 => some "Screen video"
  | 4 => some "On2 VP6"
  | 5 => some "On2 VP6 with alpha channel"
  | 6 => some "Screen video version 2"
  | 7 => some "AVC"
  | _ => none

/-- Models `avc_packet_type_dict`. -/
def avcPacketTypeName : Nat → Option String
  | 0 => some "AVC sequence header"
  | 1 => some "AVC NALU"
  | 2 => some "AVC end of sequence"
  | _ => none

/-- Models `parse_video`: tag header, one flags byte split 4+4 bits with `try/except`
fallback to `'unknown <code>'`; then — unconditionally, whatever the codec —
one AVC packet-type byte and a 3-byte composition time (decoded unsigned);
finally `seek(data_size - 1 - 4, 1)`.  The label `Compositon Time` keeps the
source's spelling. -/
def parse_video (g : Globals) (c : Cursor) :
    Except Err (List Rec × Globals × Cursor) := do
  let (hrecs, dataSizeInt, g, c) ← parse_tag_header g c
  let (fb, c) ← readExact 1 c
  let v := beVal fb
  let ftn := lookupOrUnknown frameTypeName (v / 16)
  let cin := lookupOrUnknown codecIdName (v % 16)
  let (ab, c) ← readExact 1 c
  let (ct3, c) ← readExact 3 c
  let avcn := lookupOrUnknown avcPacketTypeName (beVal ab)
  let recs := hrecs ++
    [Rec.field "FrameType" (Val.name ftn),
     Rec.field "CodecID" (Val.name cin),
     Rec.field "AVC Packet Type" (Val.name avcn),
     Rec.field "Compositon Time" (Val.n (beVal ct3))]
  let c ← seekRel ((dataSizeInt : Int) - 1 - 4) c
  return (recs, g, c)

/-- The `for i in range(key_frame_num)` loop inside a type-10 strict array:
each entry is a 1-byte type tag and an 8-byte double.  `i` is the running
index used in the `keyframe[%d]` label. -/
def readKeyframes : Nat → Nat → Cursor → Except Err (List Rec × Cursor)
  | 0, _, c => Except.ok ([], c)
  | k + 1, i, c => do
    let (_, c) ← readExact 1 c
    let (dv, c) ← readExact 8 c
    let (rs, c) ← readKeyframes k (i + 1) c
    return (Rec.keyframe i (Val.d dv) :: rs, c)

/-- One iteration of the `for i in range(2)` loop inside an element of type 3:
a 2-byte sub-title length, the sub-title, a 1-byte sub-type, and — when the
sub-type is 10 — a 4-byte count followed by that many keyframe entries. -/
def parse_sub_member (c : Cursor) : Except Err (List Rec × Cursor) := do
  let (l2, c) ← readExact 2 c
  let r := readUpTo (beVal l2) c
  let stitle := r.1
  let c := r.2
  let (tb, c) ← readExact 1 c
  if beVal tb = 10 then do
    let (n4, c) ← readExact 4 c
    let kfn := beVal n4
    let (krs, c) ← readKeyframes kfn 0 c
    return (Rec.sub stitle :: Rec.keyFrameNum kfn :: krs, c)
  else
    return ([Rec.sub stitle], c)

/-- The `while True` loop of `parse_script_data`.  Each iteration reads a
2-byte name length, the name, and a 1-byte element type; element types 0, 1,
2 read their value; element type 3 reads two sub-members, consumes an end
marker if one follows, and BREAKS the loop; any other element type reads no
value and the loop continues at the next byte.  Fuel only bounds the
recursion; each iteration consumes at least 3 bytes, so the fuel supplied by
`parse_script_data` can never be exhausted. -/
def parse_script_loop : Nat → Cursor → Except Err (List Rec × Cursor)
  | 0, _ => Except.error Err.fuel
  | fuel + 1, c => do
    let (l2, c) ← readExact 2 c
    let r := readUpTo (beVal l2) c
    let title := r.1
    let c := r.2
    let (tb, c) ← readExact 1 c
    let elemType := beVal tb
    if elemType = 0 then do
      let (dv, c) ← readExact 8 c
      let (rs, c2) ← parse_script_loop fuel c
      return (Rec.prop title (Val.d dv) :: rs, c2)
    else if elemType = 1 then do
      let (bv, c) ← readExact 1 c
      let (rs, c2) ← parse_script_loop fuel c
      return (Rec.prop title (Val.n (beVal bv)) :: rs, c2)
    else if elemType = 2 then do
      let (l2b, c) ← readExact 2 c
      let r2 := readUpTo (beVal l2b) c
      let (rs, c2) ← parse_script_loop fuel r2.2
      return (Rec.prop title (Val.s r2.1) :: rs, c2)
    else if elemType = 3 then do
      let (m1, c) ← parse_sub_member c
      let (m2, c) ← parse_sub_member c
      let (em, c) ← is_end_marker c
      let c ← if em then seekRel 3 c else Except.ok c
      return (Rec.prop title (Val.d []) :: (m1 ++ m2), c)
    else do
      let (rs, c2) ← parse_script_loop fuel c
      return (rs, c2)

/-- Models `parse_script_data`: top-level string value, then the ECMA-array type
byte and advisory array size, then the name/value loop, then a tolerated
optional trailing end marker. -/
def parse_script_data (c : Cursor) : Except Err (List Rec × Cursor) := do
  let (tb, c) ← readExact 1 c
  let vt := beVal tb
  let (l2, c) ← readExact 2 c
  let ssz := beVal l2
  let r := readUpTo ssz c
  let s := r.1
  let c := r.2
  let (tb2, c) ← readExact 1 c
  let vt2 := beVal tb2
  let (a4, c) ← readExact 4 c
  let asz := beVal a4
  let (lrs, c) ← parse_script_loop (c.data.length + 1) c
  let (em, c) ← is_end_marker c
  let c ← if em then seekRel 3 c else Except.ok c
  return ([Rec.field "Type" (Val.n vt), Rec.field "String Size" (Val.n ssz),
    Rec.field "String" (Val.s s), Rec.field "Type" (Val.n vt2),
    Rec.field "Array Size" (Val.n asz)] ++ lrs, c)

/-- Models `parse_script`: tag header, then either the detailed script-data parse or
a forward seek over the whole payload. -/
def parse_script (detail : Bool) (g : Globals) (c : Cursor) :
    Except Err (List Rec × Globals × Cursor) := do
  let (hrecs, dataSizeInt, g, c) ← parse_tag_header g c
  if detail then do
    let (srs, c) ← parse_script_data c
    return (hrecs ++ srs, g, c)
  else do
    let c ← seekRel (dataSizeInt : Int) c
    return (hrecs, g, c)

/-- The body of the `while has_next_tag(...)` loop of `parse_flv`:
increment the tag counter, write the `Tag No.` line, peek the tag-type byte
(read one, seek back one), dispatch — 8 to audio, 9 to video, EVERYTHING
ELSE to script — and read the trailing PreviousTagSize. -/
def parse_one_tag (detail : Bool) (g : Globals) (c : Cursor) :
    Except Err (List Rec × Globals × Cursor) := do
  let g : Globals := { g with tagCount := g.tagCount + 1 }
  let (tb, c) ← readExact 1 c
  let tagTypeInt := beVal tb
  let c ← seekRel (-1) c
  let (trs, g, c) ←
    if tagTypeInt = 8 then parse_audio g c
    else if tagTypeInt = 9 then parse_video g c
    else parse_script detail g c
  let (prs, c) ← parse_pre_tag_size c
  return (Rec.tagNo g.tagCount :: (trs ++ prs), g, c)

/-- The tag loop of `parse_flv`, fuel-indexed.  Each successful iteration
consumes at least one byte, so fuel `data.length + 1` can never be
exhausted. -/
def parse_flv_loop (detail : Bool) :
    Nat → Globals → Cursor → Except Err (List Rec × Globals × Cursor)
  | 0, _, _ => Except.error Err.fuel
  | fuel + 1, g, c =>
    let r := has_next_tag c
    if r.1 then do
      let (rs, g, c) ← parse_one_tag detail g r.2
      let (rs2, g, c) ← parse_flv_loop detail fuel g c
      return (rs ++ rs2, g, c)
    else Except.ok ([], g, r.2)

/-- Models `parse_flv`: file header, then the tag loop.  The incoming `Globals`
value models whatever `_tag_count`/`_offset` hold when the call starts; the
function does NOT reset them. -/
def parse_flv (detail : Bool) (g : Globals) (data : List Nat) :
    Except Err (List Rec × Globals) := do
  let (hrs, g, c) ← parse_file_header g ⟨data, 0⟩
  let (trs, g, _) ← parse_flv_loop detail (data.length + 1) g c
  return (hrs ++ trs, g)

/-! ## Basic lemmas about the cursor primitives -/

@[simp] theorem except_ok_bind {α β : Type} (a : α) (f : α → Except Err β) :
    (Except.ok a : Except Err α) >>= f = f a := rfl

@[simp] theorem except_error_bind {α β : Type} (e : Err) (f : α → Except Err β) :
    (Except.error e : Except Err α) >>= f = Except.error e := rfl

@[simp] theorem except_pure_eq {α : Type} (a : α) :
    (pure a : Except Err α) = Except.ok a := rfl

theorem drop_add {α : Type} {d l : List α} {p : Nat} (h : d.drop p = l)
    (n : Nat) : d.drop (p + n) = l.drop n := by
  rw [← List.drop_drop, h]

theorem length_eq_of_drop {d l : List Nat} {p : Nat}
    (h : d.drop p = l) (hne : l ≠ []) : d.length = p + l.length := by
  have h1 : l.length = d.length - p := by rw [← h, List.length_drop]
  rcases Nat.lt_or_ge p d.length with hl | hl
  · omega
  · rw [List.drop_eq_nil_of_le hl] at h
    exact absurd h.symm hne

theorem readExact_eval {d l : List Nat} {p : Nat} (h : d.drop p = l)
    {n : Nat} (h0 : 0 < n) (hn : n ≤ l.length) :
    readExact n ⟨d, p⟩ = Except.ok (l.take n, ⟨d, p + n⟩) := by
  have hne : l ≠ [] := by
    intro he
    subst he
    simp at hn
    omega
  have hl := length_eq_of_drop h hne
  unfold readExact
  simp only [show (Cursor.mk d p).data = d from rfl, show (Cursor.mk d p).pos = p from rfl]
  rw [if_pos (by omega), h]

theorem readUpTo_eval {d l : List Nat} {p : Nat} (h : d.drop p = l)
    {n : Nat} (hn : n ≤ l.length) (hp : p ≤ d.length) :
    readUpTo n ⟨d, p⟩ = (l.take n, ⟨d, p + n⟩) := by
  have h1 : l.length = d.length - p := by rw [← h, List.length_drop]
  unfold readUpTo
  simp only [show (Cursor.mk d p).data = d from rfl, show (Cursor.mk d p).pos = p from rfl]
  rw [h]
  have h2 : max p (min (p + n) d.length) = p + n := by omega
  rw [h2]

theorem seekRel_fwd_eval (d : List Nat) (p k : Nat) :
    seekRel (k : Int) ⟨d, p⟩ = Except.ok ⟨d, p + k⟩ := by
  have h1 : ¬((p : Int) + k < 0) := by omega
  have h2 : ((p : Int) + k).toNat = p + k := by omega
  unfold seekRel
  simp only [show (Cursor.mk d p).pos = p from rfl, show (Cursor.mk d p).data = d from rfl]
  rw [if_neg h1, h2]

theorem seekRel_back_eval (d : List Nat) (p k : Nat) (h : k ≤ p) :
    seekRel (-(k : Int)) ⟨d, p⟩ = Except.ok ⟨d, p - k⟩ := by
  have h1 : ¬((p : Int) + -(k : Int) < 0) := by omega
  have h2 : ((p : Int) + -(k : Int)).toNat = p - k := by omega
  unfold seekRel
  simp only [show (Cursor.mk d p).pos = p from rfl, show (Cursor.mk d p).data = d from rfl]
  rw [if_neg h1, h2]

theorem beVal3_eq_nine {x y z : Nat} :
    beVal [x, y, z] = 9 ↔ x = 0 ∧ y = 0 ∧ z = 9 := by
  simp only [beVal, List.foldl]
  omega

/-! ## C10: the two lookahead operations -/

/-- C10: the two lookahead operations preserve the cursor position:
`has_next_tag` returns whether at least one more byte is available and leaves
the read position unchanged in both outcomes, and `is_end_marker` (when at
least 3 bytes remain) returns whether the next 3 bytes are `00 00 09` and
leaves the read position unchanged in both outcomes. -/
theorem lookahead_preserves_position (c : Cursor) :
    has_next_tag c = (decide (c.pos < c.data.length), c) ∧
    (c.pos + 3 ≤ c.data.length →
      is_end_marker c =
        Except.ok (decide ((c.data.drop c.pos).take 3 = [0, 0, 9]), c)) := by
  obtain ⟨d, p⟩ := c
  simp only
  constructor
  · rcases Nat.lt_or_ge p d.length with hl | hl
    · have h1 : (d.drop p).take 1 = [d.get ⟨p, hl⟩] :=
        List.take_one_drop_eq_of_lt_length hl
      have h2 : max p (min (p + 1) d.length) = p + 1 := by omega
      simp [has_next_tag, readUpTo, h1, h2, hl]
    · have h0 : d.drop p = [] := List.drop_eq_nil_of_le hl
      have h2 : max p (min (p + 1) d.length) = p := by omega
      have hn : ¬p < d.length := by omega
      simp [has_next_tag, readUpTo, h0, h2, hn]
  · intro h3
    have hlen3 : 3 ≤ (d.drop p).length := by
      rw [List.length_drop]
      omega
    have hlen : ((d.drop p).take 3).length = 3 := by
      rw [List.length_take, List.length_drop]
      omega
    obtain ⟨x, y, z, hxyz⟩ := List.length_eq_three.mp hlen
    unfold is_end_marker
    rw [readExact_eval rfl (by omega) hlen3, except_ok_bind]
    rw [hxyz]
    dsimp only
    have hsk : seekRel (-3) (⟨d, p + 3⟩ : Cursor) = Except.ok ⟨d, p⟩ := by
      unfold seekRel
      dsimp only
      split
      · exfalso
        omega
      · simp only [Except.ok.injEq, Cursor.mk.injEq, true_and]
        omega
    by_cases h9 : beVal [x, y, z] = 9
    · obtain ⟨hx, hy, hz⟩ := beVal3_eq_nine.mp h9
      subst hx; subst hy; subst hz
      rw [if_pos h9]
      rw [hsk, except_ok_bind, except_pure_eq]
      simp
    · rw [if_neg h9]
      rw [hsk, except_ok_bind, except_pure_eq]
      have hne : ([x, y, z] : List Nat) ≠ [0, 0, 9] := by
        intro he
        apply h9
        rw [he]
        rfl
      simp [hne]

/-- Witness for C10 at a concrete cursor with at least three bytes left. -/
theorem lookahead_preserves_position_witness :
    has_next_tag ⟨[0, 0, 9, 7], 0⟩ =
      (decide ((0 : Nat) < ([0, 0, 9, 7] : List Nat).length), ⟨[0, 0, 9, 7], 0⟩) ∧
    is_end_marker ⟨[0, 0, 9, 7], 0⟩ =
      Except.ok (decide ((([0, 0, 9, 7] : List Nat).drop 0).take 3 = [0, 0, 9]),
        ⟨[0, 0, 9, 7], 0⟩) := by
  obtain ⟨h1, h2⟩ := lookahead_preserves_position ⟨[0, 0, 9, 7], 0⟩
  exact ⟨h1, h2 (by decide)⟩

/-! ## Concrete byte sources used by counterexamples and witnesses -/

/-- A 13-byte FLV file header: signature `FLV`, version 1, flags audio+video,
data offset 9, then the zero PreviousTagSize. -/
def flvHeaderBytes : List Nat := [70, 76, 86, 1, 5, 0, 0, 0, 9, 0, 0, 0, 0]

/-- A complete Audio tag (data size 2): MP3 flags byte `0x2F`, one extra
payload byte 0, then the given 4-byte PreviousTagSize. -/
def audioTagWithPts (pts : List Nat) : List Nat :=
  [8, 0, 0, 2, 0, 0, 0, 0, 0, 0, 0, 47, 0] ++ pts

/-! ## C1 counterexample: the empty ECMA array -/

/-- A Script tag payload whose ECMA array is empty: a type-2 top-level string
`"a"`, a type-8 array marker with advisory size 0, then immediately the
3-byte end marker `00 00 09`. -/
def emptyArrayScriptPayload : List Nat := [2, 0, 1, 97, 8, 0, 0, 0, 0, 0, 0, 9]

/-- C1 counterexample: on a Script payload whose ECMA array has no entries
(end marker immediately after the array size) the detailed script parse does
NOT stop at the end marker with zero property records; it consumes the
marker bytes as a zero-length name plus element type 9 and then reads past
the array until input is exhausted. -/
theorem script_empty_array_overruns :
    parse_script_data ⟨emptyArrayScriptPayload, 0⟩ = Except.error Err.eof := by
  rfl

/-! ## C2 counterexample: PreviousTagSize is echoed, never verified -/

/-- Header plus two Audio tags, both with the correct PreviousTagSize 13. -/
def flvGoodFile : List Nat :=
  flvHeaderBytes ++ audioTagWithPts [0, 0, 0, 13] ++ audioTagWithPts [0, 0, 0, 13]

/-- The same file with the first tag's PreviousTagSize corrupted to 999
(the correct value is 11 + data_size = 13). -/
def flvBadPtsFile : List Nat :=
  flvHeaderBytes ++ audioTagWithPts [0, 0, 3, 231] ++ audioTagWithPts [0, 0, 0, 13]

/-- The full record stream produced for `flvGoodFile`. -/
def flvGoodRecs : List Rec :=
  [Rec.headerLine, Rec.offset 0,
   Rec.field "Signature" (Val.s [70, 76, 86]),
   Rec.field "Version" (Val.n 1),
   Rec.field "TypeFlagsReserved" (Val.n 0),
   Rec.field "TypeFlagsAudio" (Val.n 1),
   Rec.field "TypeFlagsReserved" (Val.n 0),
   Rec.field "TypeFlagsVideo" (Val.n 1),
   Rec.field "DataOffset" (Val.n 9),
   Rec.prevTagSize 0,
   Rec.tagNo 1, Rec.offset 13, Rec.tagType "Audio", Rec.dataSize 2,
   Rec.timestamp 0, Rec.timestampExt 0, Rec.streamId 0,
   Rec.field "SoundFormat" (Val.name "MP3"),
   Rec.field "SoundRate" (Val.name "44-kHz"),
   Rec.field "SoundSize" (Val.name "snd16Bit"),
   Rec.field "SoundType" (Val.name "sndStereo"),
   Rec.field "ACC Packet Type" (Val.name "AAC sequence header"),
   Rec.prevTagSize 13,
   Rec.tagNo 2, Rec.offset 30, Rec.tagType "Audio", Rec.dataSize 2,
   Rec.timestamp 0, Rec.timestampExt 0, Rec.streamId 0,
   Rec.field "SoundFormat" (Val.name "MP3"),
   Rec.field "SoundRate" (Val.name "44-kHz"),
   Rec.field "SoundSize" (Val.name "snd16Bit"),
   Rec.field "SoundType" (Val.name "sndStereo"),
   Rec.field "ACC Packet Type" (Val.name "AAC sequence header"),
   Rec.prevTagSize 13]

/-- C2 counterexample: corrupting a PreviousTagSize (999 instead of the
correct 11 + data_size = 13) changes nothing in the output except the echoed
number at index 22 — no `SizeMismatch` (or any other) warning record is
emitted — and decoding continues to the next tag. -/
theorem prev_tag_size_unverified_cex :
    parse_flv false ⟨0, 0⟩ flvGoodFile = Except.ok (flvGoodRecs, ⟨2, 47⟩) ∧
    parse_flv false ⟨0, 0⟩ flvBadPtsFile =
      Except.ok (flvGoodRecs.set 22 (Rec.prevTagSize 999), ⟨2, 47⟩) ∧
    Rec.tagNo 2 ∈ flvGoodRecs.set 22 (Rec.prevTagSize 999) ∧
    flvGoodRecs.get? 22 = some (Rec.prevTagSize 13) :=
  ⟨rfl, rfl, by decide, by decide⟩

/-! ## C3 counterexample: the AAC byte is read for a non-AAC tag -/

/-- An Audio tag with sound_format 2 (MP3): data size 2, flags byte `0x2F`,
second payload byte 5. -/
def mp3AudioTagBytes : List Nat := [8, 0, 0, 2, 0, 0, 0, 0, 0, 0, 0, 47, 5]

/-- C3 counterexample: for a NON-AAC audio tag (sound_format 2, MP3) the
decoder still reads the byte after the flags byte as an AAC packet type and
looks it up, failing with `KeyError 5`; under the claim that byte is part of
the skipped remainder and is never interpreted. -/
theorem audio_reads_aac_byte_for_mp3_cex :
    parse_audio ⟨0, 0⟩ ⟨mp3AudioTagBytes, 0⟩ = Except.error (Err.keyError 5) := by
  rfl

/-! ## C4 counterexample: the AVC fields are read for a non-AVC tag -/

/-- A Video tag with codec_id 2 (Sorenson H.263): data size 5, flags byte
`0x12`, then bytes 1, 0, 0, 0. -/
def sorensonVideoTagBytes : List Nat :=
  [9, 0, 0, 5, 0, 0, 0, 0, 0, 0, 0, 18, 1, 0, 0, 0]

/-- C4 counterexample: for a NON-AVC video tag (codec_id 2, Sorenson H.263)
the decoder still reads a 1-byte AVC packet type and a 3-byte composition
time and emits records for them; under the claim those four bytes are read
if and only if the codec is AVC (7). -/
theorem video_reads_avc_fields_for_sorenson_cex :
    parse_video ⟨0, 0⟩ ⟨sorensonVideoTagBytes, 0⟩ = Except.ok (
      [Rec.offset 0, Rec.tagType "Video", Rec.dataSize 5, Rec.timestamp 0,
       Rec.timestampExt 0, Rec.streamId 0,
       Rec.field "FrameType" (Val.name "keyframe (for AVC, a seekable frame)"),
       Rec.field "CodecID" (Val.name "Sorenson H.263"),
       Rec.field "AVC Packet Type" (Val.name "AVC NALU"),
       Rec.field "Compositon Time" (Val.n 0)],
      ⟨0, 20⟩, ⟨sorensonVideoTagBytes, 16⟩) := by
  rfl

/-! ## C8 counterexample: unknown audio codes crash instead of degrading -/

/-- An Audio tag whose flags byte `0xC0` has sound_format 12 (not in the
SoundFormat dict). -/
def audioFormat12TagBytes : List Nat :=
  [8, 0, 0, 2, 0, 0, 0, 0, 0, 0, 0, 192, 0]

/-- C8 counterexample: an unrecognized sound_format code (12) makes the
audio decoder fail with `KeyError 12`; no record labelled `unknown 12` is
produced and decoding does not continue. -/
theorem audio_unknown_format_crashes_cex :
    parse_audio ⟨0, 0⟩ ⟨audioFormat12TagBytes, 0⟩ =
      Except.error (Err.keyError 12) := by
  rfl

/-! ## C9 counterexample: the counters survive across decode calls -/

/-- Header plus a single Audio tag with correct PreviousTagSize. -/
def flvOneTagFile : List Nat := flvHeaderBytes ++ audioTagWithPts [0, 0, 0, 13]

/-- Records of the first decode of `flvOneTagFile` (counters start at 0). -/
def flvFirstRunRecs : List Rec :=
  [Rec.headerLine, Rec.offset 0,
   Rec.field "Signature" (Val.s [70, 76, 86]),
   Rec.field "Version" (Val.n 1),
   Rec.field "TypeFlagsReserved" (Val.n 0),
   Rec.field "TypeFlagsAudio" (Val.n 1),
   Rec.field "TypeFlagsReserved" (Val.n 0),
   Rec.field "TypeFlagsVideo" (Val.n 1),
   Rec.field "DataOffset" (Val.n 9),
   Rec.prevTagSize 0,
   Rec.tagNo 1, Rec.offset 13, Rec.tagType "Audio", Rec.dataSize 2,
   Rec.timestamp 0, Rec.timestampExt 0, Rec.streamId 0,
   Rec.field "SoundFormat" (Val.name "MP3"),
   Rec.field "SoundRate" (Val.name "44-kHz"),
   Rec.field "SoundSize" (Val.name "snd16Bit"),
   Rec.field "SoundType" (Val.name "sndStereo"),
   Rec.field "ACC Packet Type" (Val.name "AAC sequence header"),
   Rec.prevTagSize 13]

/-- Records of the second decode of the same file, starting from the counter
state the first decode left behind. -/
def flvSecondRunRecs : List Rec :=
  [Rec.headerLine, Rec.offset 30,
   Rec.field "Signature" (Val.s [70, 76, 86]),
   Rec.field "Version" (Val.n 1),
   Rec.field "TypeFlagsReserved" (Val.n 0),
   Rec.field "TypeFlagsAudio" (Val.n 1),
   Rec.field "TypeFlagsReserved" (Val.n 0),
   Rec.field "TypeFlagsVideo" (Val.n 1),
   Rec.field "DataOffset" (Val.n 9),
   Rec.prevTagSize 0,
   Rec.tagNo 2, Rec.offset 43, Rec.tagType "Audio", Rec.dataSize 2,
   Rec.timestamp 0, Rec.timestampExt 0, Rec.streamId 0,
   Rec.field "SoundFormat" (Val.name "MP3"),
   Rec.field "SoundRate" (Val.name "44-kHz"),
   Rec.field "SoundSize" (Val.name "snd16Bit"),
   Rec.field "SoundType" (Val.name "sndStereo"),
   Rec.field "ACC Packet Type" (Val.name "AAC sequence header"),
   Rec.prevTagSize 13]

/-- C9 counterexample: decoding the same immutable byte source twice in
succession yields two DIFFERENT record streams, because the tag counter and
offset counter are process-wide state that `parse_flv` never resets: the
second run's `Tag No.` and `## OFFSET` annotations continue from where the
first run stopped. -/
theorem decode_twice_differs_cex :
    parse_flv false ⟨0, 0⟩ flvOneTagFile = Except.ok (flvFirstRunRecs, ⟨1, 30⟩) ∧
    parse_flv false ⟨1, 30⟩ flvOneTagFile = Except.ok (flvSecondRunRecs, ⟨2, 60⟩) ∧
    flvFirstRunRecs ≠ flvSecondRunRecs :=
  ⟨rfl, rfl, by decide⟩

/-! ## Forward evaluation of the tag-header parser -/

theorem beVal_one (b : Nat) : beVal [b] = b := by
  simp [beVal]

theorem tagTypeName_eq_none {b : Nat} (h8 : b ≠ 8) (h9 : b ≠ 9)
    (h18 : b ≠ 18) : tagTypeName b = none := by
  unfold tagTypeName
  split
  · exact absurd rfl h8
  · exact absurd rfl h9
  · exact absurd rfl h18
  · rfl

/-- Forward evaluation of `parse_tag_header` on a cursor with at least 11
bytes left and a recognized tag type. -/
theorem parse_tag_header_eval (g : Globals) (d : List Nat) (p : Nat)
    (tt d2 d1 d0 t2 t1 t0 te s2 s1 s0 : Nat) (rest : List Nat) (nm : String)
    (h : d.drop p =
      tt :: d2 :: d1 :: d0 :: t2 :: t1 :: t0 :: te :: s2 :: s1 :: s0 :: rest)
    (hnm : tagTypeName tt = some nm) :
    parse_tag_header g ⟨d, p⟩ = Except.ok
      ([Rec.offset g.offset, Rec.tagType nm, Rec.dataSize (beVal [d2, d1, d0]),
        Rec.timestamp (beVal [t2, t1, t0]), Rec.timestampExt te,
        Rec.streamId (beVal [s2, s1, s0])],
       beVal [d2, d1, d0],
       { g with offset := g.offset + 11 + beVal [d2, d1, d0] + 4 },
       ⟨d, p + 11⟩) := by
  have h1 : d.drop (p + 1) =
      d2 :: d1 :: d0 :: t2 :: t1 :: t0 :: te :: s2 :: s1 :: s0 :: rest := by
    simpa using drop_add h 1
  have h2 : d.drop (p + 1 + 3) =
      t2 :: t1 :: t0 :: te :: s2 :: s1 :: s0 :: rest := by
    simpa using drop_add h1 3
  have h3 : d.drop (p + 1 + 3 + 3) = te :: s2 :: s1 :: s0 :: rest := by
    simpa using drop_add h2 3
  have h4 : d.drop (p + 1 + 3 + 3 + 1) = s2 :: s1 :: s0 :: rest := by
    simpa using drop_add h3 1
  unfold parse_tag_header
  rw [readExact_eval h (by omega) (by simp), except_ok_bind]
  dsimp only [List.take]
  rw [readExact_eval h1 (by omega) (by simp), except_ok_bind]
  dsimp only [List.take]
  rw [readExact_eval h2 (by omega) (by simp), except_ok_bind]
  dsimp only [List.take]
  rw [readExact_eval h3 (by omega) (by simp), except_ok_bind]
  dsimp only [List.take]
  rw [readExact_eval h4 (by omega) (by simp), except_ok_bind]
  dsimp only [List.take]
  rw [beVal_one tt]
  unfold lookupOrKeyError
  rw [hnm]
  dsimp only
  rw [beVal_one te]
  have hp : p + 1 + 3 + 3 + 1 + 3 = p + 11 := by omega
  rw [hp]
  rfl

/-! ## Inversion of the parsers on success (record-shape lemmas) -/

theorem except_bind_ok_inv {α β : Type} {x : Except Err α} {f : α → Except Err β}
    {b : β} (h : x >>= f = Except.ok b) :
    ∃ a, x = Except.ok a ∧ f a = Except.ok b := by
  cases x with
  | error e =>
    rw [except_error_bind] at h
    exact Except.noConfusion h
  | ok a => exact ⟨a, rfl, h⟩

/-- Records that anchor the per-tag structure of the output: the `## OFFSET`
line and the `Tag No.` line.  Everything a payload parser emits is
non-anchoring. -/
def isAnchorRec : Rec → Bool
  | Rec.offset _ => true
  | Rec.tagNo _ => true
  | _ => false

theorem parse_pre_tag_size_shape {c c' : Cursor} {rs : List Rec}
    (h : parse_pre_tag_size c = Except.ok (rs, c')) :
    ∃ v, rs = [Rec.prevTagSize v] := by
  unfold parse_pre_tag_size at h
  obtain ⟨⟨bs, c1⟩, _, h⟩ := except_bind_ok_inv h
  simp only [except_pure_eq, Except.ok.injEq, Prod.mk.injEq] at h
  exact ⟨beVal bs, h.1.symm⟩

theorem parse_tag_header_shape {g g' : Globals} {c c' : Cursor} {rs : List Rec}
    {ds : Nat} (h : parse_tag_header g c = Except.ok (rs, ds, g', c')) :
    ∃ nm t te si,
      rs = [Rec.offset g.offset, Rec.tagType nm, Rec.dataSize ds,
            Rec.timestamp t, Rec.timestampExt te, Rec.streamId si] ∧
      g' = { g with offset := g.offset + 11 + ds + 4 } := by
  unfold parse_tag_header at h
  obtain ⟨⟨b1, c1⟩, _, h⟩ := except_bind_ok_inv h
  obtain ⟨⟨b3, c2⟩, _, h⟩ := except_bind_ok_inv h
  obtain ⟨⟨t3, c3⟩, _, h⟩ := except_bind_ok_inv h
  obtain ⟨⟨e1, c4⟩, _, h⟩ := except_bind_ok_inv h
  obtain ⟨⟨s3v, c5⟩, _, h⟩ := except_bind_ok_inv h
  obtain ⟨nm, _, h⟩ := except_bind_ok_inv h
  simp only [except_pure_eq, Except.ok.injEq, Prod.mk.injEq] at h
  obtain ⟨hrs, hds, hg, _⟩ := h
  subst hds
  exact ⟨nm, beVal t3, beVal e1, beVal s3v, hrs.symm, hg.symm⟩

theorem readKeyframes_shape : ∀ {n i : Nat} {c c' : Cursor} {rs : List Rec},
    readKeyframes n i c = Except.ok (rs, c') → ∀ r ∈ rs, isAnchorRec r = false := by
  intro n
  induction n with
  | zero =>
    intro i c c' rs h r hr
    unfold readKeyframes at h
    simp only [Except.ok.injEq, Prod.mk.injEq] at h
    rw [← h.1] at hr
    simp at hr
  | succ k ih =>
    intro i c c' rs h r hr
    unfold readKeyframes at h
    obtain ⟨⟨b1, c1⟩, _, h⟩ := except_bind_ok_inv h
    obtain ⟨⟨dv, c2⟩, _, h⟩ := except_bind_ok_inv h
    obtain ⟨⟨rs2, c3⟩, hrec, h⟩ := except_bind_ok_inv h
    simp only [except_pure_eq, Except.ok.injEq, Prod.mk.injEq] at h
    rw [← h.1] at hr
    simp only [List.mem_cons] at hr
    rcases hr with hr | hr
    · rw [hr]
      rfl
    · exact ih hrec r hr

theorem parse_sub_member_shape {c c' : Cursor} {rs : List Rec}
    (h : parse_sub_member c = Except.ok (rs, c')) :
    ∀ r ∈ rs, isAnchorRec r = false := by
  intro r hr
  unfold parse_sub_member at h
  obtain ⟨⟨l2, c1⟩, _, h⟩ := except_bind_ok_inv h
  obtain ⟨⟨tb, c2⟩, _, h⟩ := except_bind_ok_inv h
  dsimp only at h
  split at h
  · obtain ⟨⟨n4, c3⟩, _, h⟩ := except_bind_ok_inv h
    obtain ⟨⟨krs, c4⟩, hkf, h⟩ := except_bind_ok_inv h
    simp only [except_pure_eq, Except.ok.injEq, Prod.mk.injEq] at h
    rw [← h.1] at hr
    simp only [List.mem_cons] at hr
    rcases hr with hr | hr
    · rw [hr]
      rfl
    · rcases hr with hr | hr
      · rw [hr]
        rfl
      · exact readKeyframes_shape hkf r hr
  · simp only [except_pure_eq, Except.ok.injEq, Prod.mk.injEq] at h
    rw [← h.1] at hr
    simp only [List.mem_cons, List.not_mem_nil, or_false] at hr
    rw [hr]
    rfl

theorem parse_script_loop_shape : ∀ {fuel : Nat} {c c' : Cursor} {rs : List Rec},
    parse_script_loop fuel c = Except.ok (rs, c') →
    ∀ r ∈ rs, isAnchorRec r = false := by
  intro fuel
  induction fuel with
  | zero =>
    intro c c' rs h
    unfold parse_script_loop at h
    exact Except.noConfusion h
  | succ k ih =>
    intro c c' rs h r hr
    unfold parse_script_loop at h
    obtain ⟨⟨l2, c1⟩, _, h⟩ := except_bind_ok_inv h
    obtain ⟨⟨tb, c2⟩, _, h⟩ := except_bind_ok_inv h
    dsimp only at h
    split at h
    · obtain ⟨⟨dv, c3⟩, _, h⟩ := except_bind_ok_inv h
      obtain ⟨⟨rs2, c4⟩, hrec, h⟩ := except_bind_ok_inv h
      simp only [except_pure_eq, Except.ok.injEq, Prod.mk.injEq] at h
      rw [← h.1] at hr
      simp only [List.mem_cons] at hr
      rcases hr with hr | hr
      · rw [hr]
        rfl
      · exact ih hrec r hr
    · split at h
      · obtain ⟨⟨bv, c3⟩, _, h⟩ := except_bind_ok_inv h
        obtain ⟨⟨rs2, c4⟩, hrec, h⟩ := except_bind_ok_inv h
        simp only [except_pure_eq, Except.ok.injEq, Prod.mk.injEq] at h
        rw [← h.1] at hr
        simp only [List.mem_cons] at hr
        rcases hr with hr | hr
        · rw [hr]
          rfl
        · exact ih hrec r hr
      · split at h
        · obtain ⟨⟨l2b, c3⟩, _, h⟩ := except_bind_ok_inv h
          obtain ⟨⟨rs2, c4⟩, hrec, h⟩ := except_bind_ok_inv h
          simp only [except_pure_eq, Except.ok.injEq, Prod.mk.injEq] at h
          rw [← h.1] at hr
          simp only [List.mem_cons] at hr
          rcases hr with hr | hr
          · rw [hr]
            rfl
          · exact ih hrec r hr
        · split at h
          · obtain ⟨⟨m1, c3⟩, hm1, h⟩ := except_bind_ok_inv h
            obtain ⟨⟨m2, c4⟩, hm2, h⟩ := except_bind_ok_inv h
            obtain ⟨⟨em, c5⟩, _, h⟩ := except_bind_ok_inv h
            dsimp only at h
            split at h
            · obtain ⟨c6, _, h⟩ := except_bind_ok_inv h
              simp only [except_pure_eq, Except.ok.injEq, Prod.mk.injEq] at h
              rw [← h.1] at hr
              simp only [List.mem_cons, List.mem_append] at hr
              rcases hr with hr | hr | hr
              · rw [hr]
                rfl
              · exact parse_sub_member_shape hm1 r hr
              · exact parse_sub_member_shape hm2 r hr
            · obtain ⟨c6, _, h⟩ := except_bind_ok_inv h
              simp only [except_pure_eq, Except.ok.injEq, Prod.mk.injEq] at h
              rw [← h.1] at hr
              simp only [List.mem_cons, List.mem_append] at hr
              rcases hr with hr | hr | hr
              · rw [hr]
                rfl
              · exact parse_sub_member_shape hm1 r hr
              · exact parse_sub_member_shape hm2 r hr
          · obtain ⟨⟨rs2, c3⟩, hrec, h⟩ := except_bind_ok_inv h
            simp only [except_pure_eq, Except.ok.injEq, Prod.mk.injEq] at h
            rw [← h.1] at hr
            exact ih hrec r hr

theorem parse_script_data_shape {c c' : Cursor} {rs : List Rec}
    (h : parse_script_data c = Except.ok (rs, c')) :
    ∀ r ∈ rs, isAnchorRec r = false := by
  intro r hr
  unfold parse_script_data at h
  obtain ⟨⟨tb, c1⟩, _, h⟩ := except_bind_ok_inv h
  obtain ⟨⟨l2, c2⟩, _, h⟩ := except_bind_ok_inv h
  obtain ⟨⟨tb2, c3⟩, _, h⟩ := except_bind_ok_inv h
  obtain ⟨⟨a4, c4⟩, _, h⟩ := except_bind_ok_inv h
  obtain ⟨⟨lrs, c5⟩, hloop, h⟩ := except_bind_ok_inv h
  obtain ⟨⟨em, c6⟩, _, h⟩ := except_bind_ok_inv h
  dsimp only at h
  split at h
  · obtain ⟨c7, _, h⟩ := except_bind_ok_inv h
    simp only [except_pure_eq, Except.ok.injEq, Prod.mk.injEq] at h
    rw [← h.1] at hr
    simp only [List.cons_append, List.nil_append, List.mem_cons] at hr
    rcases hr with hr | hr | hr | hr | hr | hr
    · rw [hr]; rfl
    · rw [hr]; rfl
    · rw [hr]; rfl
    · rw [hr]; rfl
    · rw [hr]; rfl
    · exact parse_script_loop_shape hloop r hr
  · obtain ⟨c7, _, h⟩ := except_bind_ok_inv h
    simp only [except_pure_eq, Except.ok.injEq, Prod.mk.injEq] at h
    rw [← h.1] at hr
    simp only [List.cons_append, List.nil_append, List.mem_cons] at hr
    rcases hr with hr | hr | hr | hr | hr | hr
    · rw [hr]; rfl
    · rw [hr]; rfl
    · rw [hr]; rfl
    · rw [hr]; rfl
    · rw [hr]; rfl
    · exact parse_script_loop_shape hloop r hr

theorem parse_audio_shape {g g' : Globals} {c c' : Cursor} {rs : List Rec}
    (h : parse_audio g c = Except.ok (rs, g', c')) :
    ∃ nm ds t te si tail,
      rs = Rec.offset g.offset :: Rec.tagType nm :: Rec.dataSize ds ::
        Rec.timestamp t :: Rec.timestampExt te :: Rec.streamId si :: tail ∧
      (∀ r ∈ tail, isAnchorRec r = false) ∧
      g' = { g with offset := g.offset + 11 + ds + 4 } := by
  unfold parse_audio at h
  obtain ⟨⟨hrecs, ds, g1, c1⟩, hth, h⟩ := except_bind_ok_inv h
  obtain ⟨nm, t, te, si, hrs1, hg1⟩ := parse_tag_header_shape hth
  obtain ⟨⟨fb, c2⟩, _, h⟩ := except_bind_ok_inv h
  obtain ⟨sfn, _, h⟩ := except_bind_ok_inv h
  obtain ⟨srn, _, h⟩ := except_bind_ok_inv h
  obtain ⟨ssn, _, h⟩ := except_bind_ok_inv h
  obtain ⟨stn, _, h⟩ := except_bind_ok_inv h
  obtain ⟨⟨ab, c3⟩, _, h⟩ := except_bind_ok_inv h
  obtain ⟨an, _, h⟩ := except_bind_ok_inv h
  obtain ⟨c4, _, h⟩ := except_bind_ok_inv h
  simp only [except_pure_eq, Except.ok.injEq, Prod.mk.injEq] at h
  obtain ⟨hrs, hg, _⟩ := h
  refine ⟨nm, ds, t, te, si,
    [Rec.field "SoundFormat" (Val.name sfn), Rec.field "SoundRate" (Val.name srn),
     Rec.field "SoundSize" (Val.name ssn), Rec.field "SoundType" (Val.name stn),
     Rec.field "ACC Packet Type" (Val.name an)], ?_, ?_, ?_⟩
  · rw [← hrs, hrs1]
    rfl
  · intro r hrr
    simp only [List.mem_cons, List.not_mem_nil, or_false] at hrr
    rcases hrr with hrr | hrr | hrr | hrr | hrr <;> (rw [hrr]; rfl)
  · rw [← hg, hg1]

theorem parse_video_shape {g g' : Globals} {c c' : Cursor} {rs : List Rec}
    (h : parse_video g c = Except.ok (rs, g', c')) :
    ∃ nm ds t te si tail,
      rs = Rec.offset g.offset :: Rec.tagType nm :: Rec.dataSize ds ::
        Rec.timestamp t :: Rec.timestampExt te :: Rec.streamId si :: tail ∧
      (∀ r ∈ tail, isAnchorRec r = false) ∧
      g' = { g with offset := g.offset + 11 + ds + 4 } := by
  unfold parse_video at h
  obtain ⟨⟨hrecs, ds, g1, c1⟩, hth, h⟩ := except_bind_ok_inv h
  obtain ⟨nm, t, te, si, hrs1, hg1⟩ := parse_tag_header_shape hth
  obtain ⟨⟨fb, c2⟩, _, h⟩ := except_bind_ok_inv h
  obtain ⟨⟨ab, c3⟩, _, h⟩ := except_bind_ok_inv h
  obtain ⟨⟨ct3, c4⟩, _, h⟩ := except_bind_ok_inv h
  obtain ⟨c5, _, h⟩ := except_bind_ok_inv h
  simp only [except_pure_eq, Except.ok.injEq, Prod.mk.injEq] at h
  obtain ⟨hrs, hg, _⟩ := h
  refine ⟨nm, ds, t, te, si,
    [Rec.field "FrameType" (Val.name (lookupOrUnknown frameTypeName (beVal fb / 16))),
     Rec.field "CodecID" (Val.name (lookupOrUnknown codecIdName (beVal fb % 16))),
     Rec.field "AVC Packet Type" (Val.name (lookupOrUnknown avcPacketTypeName (beVal ab))),
     Rec.field "Compositon Time" (Val.n (beVal ct3))], ?_, ?_, ?_⟩
  · rw [← hrs, hrs1]
    rfl
  · intro r hrr
    simp only [List.mem_cons, List.not_mem_nil, or_false] at hrr
    rcases hrr with hrr | hrr | hrr | hrr <;> (rw [hrr]; rfl)
  · rw [← hg, hg1]

theorem parse_script_shape {detail : Bool} {g g' : Globals} {c c' : Cursor}
    {rs : List Rec} (h : parse_script detail g c = Except.ok (rs, g', c')) :
    ∃ nm ds t te si tail,
      rs = Rec.offset g.offset :: Rec.tagType nm :: Rec.dataSize ds ::
        Rec.timestamp t :: Rec.timestampExt te :: Rec.streamId si :: tail ∧
      (∀ r ∈ tail, isAnchorRec r = false) ∧
      g' = { g with offset := g.offset + 11 + ds + 4 } := by
  unfold parse_script at h
  obtain ⟨⟨hrecs, ds, g1, c1⟩, hth, h⟩ := except_bind_ok_inv h
  obtain ⟨nm, t, te, si, hrs1, hg1⟩ := parse_tag_header_shape hth
  dsimp only at h
  split at h
  · obtain ⟨⟨srs, c2⟩, hsd, h⟩ := except_bind_ok_inv h
    simp only [except_pure_eq, Except.ok.injEq, Prod.mk.injEq] at h
    obtain ⟨hrs, hg, _⟩ := h
    refine ⟨nm, ds, t, te, si, srs, ?_, ?_, ?_⟩
    · rw [← hrs, hrs1]
      rfl
    · exact parse_script_data_shape hsd
    · rw [← hg, hg1]
  · obtain ⟨c2, _, h⟩ := except_bind_ok_inv h
    simp only [except_pure_eq, Except.ok.injEq, Prod.mk.injEq] at h
    obtain ⟨hrs, hg, _⟩ := h
    refine ⟨nm, ds, t, te, si, [], ?_, ?_, ?_⟩
    · rw [← hrs, hrs1]
    · intro r hrr
      simp at hrr
    · rw [← hg, hg1]

theorem parse_one_tag_shape {detail : Bool} {g g' : Globals} {c c' : Cursor}
    {rs : List Rec} (h : parse_one_tag detail g c = Except.ok (rs, g', c')) :
    ∃ nm ds t te si tail,
      rs = Rec.tagNo (g.tagCount + 1) :: Rec.offset g.offset :: Rec.tagType nm ::
        Rec.dataSize ds :: Rec.timestamp t :: Rec.timestampExt te ::
        Rec.streamId si :: tail ∧
      (∀ r ∈ tail, isAnchorRec r = false) ∧
      g' = ⟨g.tagCount + 1, g.offset + 11 + ds + 4⟩ := by
  unfold parse_one_tag at h
  obtain ⟨⟨tb, c1⟩, _, h⟩ := except_bind_ok_inv h
  obtain ⟨c2, _, h⟩ := except_bind_ok_inv h
  dsimp only at h
  split at h
  · obtain ⟨⟨trs, g1, c3⟩, hdisp, h⟩ := except_bind_ok_inv h
    obtain ⟨⟨prs, c4⟩, hpts, h⟩ := except_bind_ok_inv h
    simp only [except_pure_eq, Except.ok.injEq, Prod.mk.injEq] at h
    obtain ⟨hrs, hg, _⟩ := h
    obtain ⟨v, hprs⟩ := parse_pre_tag_size_shape hpts
    subst hprs
    obtain ⟨nm, ds, t, te, si, tail2, htrs, hplain, hg1⟩ := parse_audio_shape hdisp
    refine ⟨nm, ds, t, te, si, tail2 ++ [Rec.prevTagSize v], ?_, ?_, ?_⟩
    · rw [← hrs, htrs, hg1]
      rfl
    · intro r hrr
      rcases List.mem_append.mp hrr with hrr | hrr
      · exact hplain r hrr
      · simp only [List.mem_singleton] at hrr
        rw [hrr]
        rfl
    · rw [← hg, hg1]
  · split at h
    · obtain ⟨⟨trs, g1, c3⟩, hdisp, h⟩ := except_bind_ok_inv h
      obtain ⟨⟨prs, c4⟩, hpts, h⟩ := except_bind_ok_inv h
      simp only [except_pure_eq, Except.ok.injEq, Prod.mk.injEq] at h
      obtain ⟨hrs, hg, _⟩ := h
      obtain ⟨v, hprs⟩ := parse_pre_tag_size_shape hpts
      subst hprs
      obtain ⟨nm, ds, t, te, si, tail2, htrs, hplain, hg1⟩ := parse_video_shape hdisp
      refine ⟨nm, ds, t, te, si, tail2 ++ [Rec.prevTagSize v], ?_, ?_, ?_⟩
      · rw [← hrs, htrs, hg1]
        rfl
      · intro r hrr
        rcases List.mem_append.mp hrr with hrr | hrr
        · exact hplain r hrr
        · simp only [List.mem_singleton] at hrr
          rw [hrr]
          rfl
      · rw [← hg, hg1]
    · obtain ⟨⟨trs, g1, c3⟩, hdisp, h⟩ := except_bind_ok_inv h
      obtain ⟨⟨prs, c4⟩, hpts, h⟩ := except_bind_ok_inv h
      simp only [except_pure_eq, Except.ok.injEq, Prod.mk.injEq] at h
      obtain ⟨hrs, hg, _⟩ := h
      obtain ⟨v, hprs⟩ := parse_pre_tag_size_shape hpts
      subst hprs
      obtain ⟨nm, ds, t, te, si, tail2, htrs, hplain, hg1⟩ := parse_script_shape hdisp
      refine ⟨nm, ds, t, te, si, tail2 ++ [Rec.prevTagSize v], ?_, ?_, ?_⟩
      · rw [← hrs, htrs, hg1]
        rfl
      · intro r hrr
        rcases List.mem_append.mp hrr with hrr | hrr
        · exact hplain r hrr
        · simp only [List.mem_singleton] at hrr
          rw [hrr]
          rfl
      · rw [← hg, hg1]

theorem parse_file_header_shape {g g' : Globals} {c c' : Cursor} {rs : List Rec}
    (h : parse_file_header g c = Except.ok (rs, g', c')) :
    ∃ sig ver f doff v,
      rs = [Rec.headerLine, Rec.offset g.offset,
        Rec.field "Signature" (Val.s sig), Rec.field "Version" (Val.n ver),
        Rec.field "TypeFlagsReserved" (Val.n (flagsReserved1 f)),
        Rec.field "TypeFlagsAudio" (Val.n (f / 4 % 2)),
        Rec.field "TypeFlagsReserved" (Val.n (f / 2 % 2)),
        Rec.field "TypeFlagsVideo" (Val.n (f % 2)),
        Rec.field "DataOffset" (Val.n doff), Rec.prevTagSize v] ∧
      g' = { g with offset := g.offset + doff + 4 } := by
  unfold parse_file_header at h
  obtain ⟨⟨vb, c1⟩, _, h⟩ := except_bind_ok_inv h
  obtain ⟨⟨fb, c2⟩, _, h⟩ := except_bind_ok_inv h
  obtain ⟨⟨o4, c3⟩, _, h⟩ := except_bind_ok_inv h
  obtain ⟨⟨prs, c4⟩, hpts, h⟩ := except_bind_ok_inv h
  simp only [except_pure_eq, Except.ok.injEq, Prod.mk.injEq] at h
  obtain ⟨hrs, hg, _⟩ := h
  obtain ⟨v, hprs⟩ := parse_pre_tag_size_shape hpts
  subst hprs
  refine ⟨(readUpTo 1 c).1 ++ (readUpTo 1 (readUpTo 1 c).2).1 ++
      (readUpTo 1 (readUpTo 1 (readUpTo 1 c).2).2).1,
    beVal vb, beVal fb, beVal o4, v, ?_, ?_⟩
  · rw [← hrs]
    rfl
  · rw [← hg]

/-! ## Recovering per-tag metadata from the record stream -/

/-- The per-tag metadata of a record stream: each `## OFFSET` line that is
immediately followed by its `TagType` and `DataSize` lines yields one
`(offset, data_size)` pair.  Only tag headers produce this pattern. -/
def tagMetas : List Rec → List (Nat × Nat)
  | [] => []
  | Rec.offset o :: Rec.tagType _ :: Rec.dataSize ds :: rest =>
      (o, ds) :: tagMetas rest
  | _ :: rest => tagMetas rest

theorem tagMetas_cons_of_not_offset (r : Rec) (l : List Rec)
    (h : ∀ n, r ≠ Rec.offset n) : tagMetas (r :: l) = tagMetas l := by
  cases r with
  | offset n => exact absurd rfl (h n)
  | headerLine => rfl
  | tagNo n => rfl
  | tagType s => rfl
  | dataSize n => rfl
  | timestamp n => rfl
  | timestampExt n => rfl
  | streamId n => rfl
  | prevTagSize n => rfl
  | field a b => rfl
  | prop a b => rfl
  | sub a => rfl
  | keyFrameNum n => rfl
  | keyframe a b => rfl

theorem tagMetas_append_plain : ∀ (l1 : List Rec),
    (∀ r ∈ l1, isAnchorRec r = false) → ∀ l2 : List Rec,
    tagMetas (l1 ++ l2) = tagMetas l2 := by
  intro l1
  induction l1 with
  | nil =>
    intro _ l2
    rfl
  | cons r t ih =>
    intro h l2
    have h1 : ∀ n, r ≠ Rec.offset n := by
      intro n hn
      have h2 := h r (List.mem_cons_self r t)
      rw [hn] at h2
      simp [isAnchorRec] at h2
    have h3 : ∀ rr ∈ t, isAnchorRec rr = false := fun rr hrr =>
      h rr (List.mem_cons_of_mem r hrr)
    rw [List.cons_append, tagMetas_cons_of_not_offset r _ h1, ih h3 l2]

theorem tagMetas_tagNo (n : Nat) (l : List Rec) :
    tagMetas (Rec.tagNo n :: l) = tagMetas l := rfl

theorem tagMetas_timestamp (n : Nat) (l : List Rec) :
    tagMetas (Rec.timestamp n :: l) = tagMetas l := rfl

theorem tagMetas_timestampExt (n : Nat) (l : List Rec) :
    tagMetas (Rec.timestampExt n :: l) = tagMetas l := rfl

theorem tagMetas_streamId (n : Nat) (l : List Rec) :
    tagMetas (Rec.streamId n :: l) = tagMetas l := rfl

theorem tagMetas_headerLine (l : List Rec) :
    tagMetas (Rec.headerLine :: l) = tagMetas l := rfl

theorem tagMetas_field (lbl : String) (v : Val) (l : List Rec) :
    tagMetas (Rec.field lbl v :: l) = tagMetas l := rfl

theorem tagMetas_prevTagSize (n : Nat) (l : List Rec) :
    tagMetas (Rec.prevTagSize n :: l) = tagMetas l := rfl

theorem tagMetas_offset_field (o : Nat) (lbl : String) (v : Val) (l : List Rec) :
    tagMetas (Rec.offset o :: Rec.field lbl v :: l) =
      tagMetas (Rec.field lbl v :: l) := rfl

theorem tagMetas_anchor (o : Nat) (nm : String) (ds : Nat) (l : List Rec) :
    tagMetas (Rec.offset o :: Rec.tagType nm :: Rec.dataSize ds :: l) =
      (o, ds) :: tagMetas l := rfl

/-- The running-offset recurrence as an inductive predicate: starting from
offset `o`, each successive tag is recorded at the current offset and
advances it by `11 + data_size + 4`. -/
def offsetChain : Nat → List (Nat × Nat) → Prop
  | _, [] => True
  | o, m :: rest => m.1 = o ∧ offsetChain (o + 11 + m.2 + 4) rest

theorem offsetChain_chain' : ∀ (l : List (Nat × Nat)) (o : Nat),
    offsetChain o l →
    List.Chain' (fun a b : Nat × Nat => b.1 = a.1 + 11 + a.2 + 4) l := by
  intro l
  induction l with
  | nil =>
    intro o _
    exact List.chain'_nil
  | cons m t ih =>
    intro o hc
    obtain ⟨h1, h2⟩ := hc
    cases t with
    | nil => simp
    | cons m2 t2 =>
      rw [List.chain'_cons]
      constructor
      · rw [h2.1, h1]
      · exact ih (o + 11 + m.2 + 4) h2

theorem parse_flv_loop_offsets {detail : Bool} : ∀ {fuel : Nat}
    {g g' : Globals} {c c' : Cursor} {rs : List Rec},
    parse_flv_loop detail fuel g c = Except.ok (rs, g', c') →
    offsetChain g.offset (tagMetas rs) := by
  intro fuel
  induction fuel with
  | zero =>
    intro g g' c c' rs h
    unfold parse_flv_loop at h
    exact Except.noConfusion h
  | succ k ih =>
    intro g g' c c' rs h
    unfold parse_flv_loop at h
    dsimp only at h
    split at h
    · obtain ⟨⟨rs1, g1, c1⟩, h1, h⟩ := except_bind_ok_inv h
      obtain ⟨⟨rs2, g2, c2⟩, h2, h⟩ := except_bind_ok_inv h
      simp only [except_pure_eq, Except.ok.injEq, Prod.mk.injEq] at h
      obtain ⟨hrs, hg, _⟩ := h
      obtain ⟨nm, ds, t, te, si, tail, hsh, hplain, hg1⟩ := parse_one_tag_shape h1
      have hchain2 := ih h2
      rw [← hrs, hsh]
      simp only [List.cons_append]
      rw [tagMetas_tagNo, tagMetas_anchor, tagMetas_timestamp,
        tagMetas_timestampExt, tagMetas_streamId, tagMetas_append_plain tail hplain rs2]
      refine ⟨rfl, ?_⟩
      rw [hg1] at hchain2
      exact hchain2
    · simp only [Except.ok.injEq, Prod.mk.injEq] at h
      rw [← h.1]
      exact trivial

theorem parse_flv_loop_tagNos {detail : Bool} : ∀ {fuel : Nat}
    {g g' : Globals} {c c' : Cursor} {rs : List Rec},
    parse_flv_loop detail fuel g c = Except.ok (rs, g', c') →
    ∀ n, Rec.tagNo n ∈ rs → g.tagCount < n := by
  intro fuel
  induction fuel with
  | zero =>
    intro g g' c c' rs h
    unfold parse_flv_loop at h
    exact Except.noConfusion h
  | succ k ih =>
    intro g g' c c' rs h n hn
    unfold parse_flv_loop at h
    dsimp only at h
    split at h
    · obtain ⟨⟨rs1, g1, c1⟩, h1, h⟩ := except_bind_ok_inv h
      obtain ⟨⟨rs2, g2, c2⟩, h2, h⟩ := except_bind_ok_inv h
      simp only [except_pure_eq, Except.ok.injEq, Prod.mk.injEq] at h
      obtain ⟨hrs, hg, _⟩ := h
      obtain ⟨nm, ds, t, te, si, tail, hsh, hplain, hg1⟩ := parse_one_tag_shape h1
      rw [← hrs] at hn
      rcases List.mem_append.mp hn with hm | hm
      · rw [hsh] at hm
        simp only [List.mem_cons] at hm
        rcases hm with hm | hm | hm | hm | hm | hm | hm | hm
        · injection hm with hm
          omega
        · exact Rec.noConfusion hm
        · exact Rec.noConfusion hm
        · exact Rec.noConfusion hm
        · exact Rec.noConfusion hm
        · exact Rec.noConfusion hm
        · exact Rec.noConfusion hm
        · have := hplain _ hm
          simp [isAnchorRec] at this
      · have := ih h2 n hm
        rw [hg1] at this
        simp only at this
        omega
    · simp only [Except.ok.injEq, Prod.mk.injEq] at h
      rw [← h.1] at hn
      simp at hn

/-! ## C5: the running-offset invariant -/

/-- C5: for every pair of consecutively decoded tags, the offset annotation
recorded for tag `i+1` equals the offset recorded for tag `i` plus
`11 + data_size(tag i) + 4`; the running offset counter is advanced by
exactly `11 + data_size + 4` per tag decoded. -/
theorem tag_offsets_chain (detail : Bool) (g g' : Globals) (data : List Nat)
    (rs : List Rec) (h : parse_flv detail g data = Except.ok (rs, g')) :
    List.Chain' (fun a b : Nat × Nat => b.1 = a.1 + 11 + a.2 + 4)
      (tagMetas rs) := by
  unfold parse_flv at h
  obtain ⟨⟨hrs1, g1, c1⟩, hfh, h⟩ := except_bind_ok_inv h
  obtain ⟨⟨trs, g2, c2⟩, hloop, h⟩ := except_bind_ok_inv h
  simp only [except_pure_eq, Except.ok.injEq, Prod.mk.injEq] at h
  obtain ⟨hrs, hg⟩ := h
  obtain ⟨sig, ver, f, doff, v, hsh, hg1⟩ := parse_file_header_shape hfh
  have hchain := parse_flv_loop_offsets hloop
  rw [← hrs, hsh]
  simp only [List.cons_append, List.nil_append]
  rw [tagMetas_headerLine, tagMetas_offset_field, tagMetas_field,
    tagMetas_field, tagMetas_field, tagMetas_field, tagMetas_field,
    tagMetas_field, tagMetas_field, tagMetas_prevTagSize]
  exact offsetChain_chain' (tagMetas trs) g1.offset hchain

/-- Witness for C5: the two-tag file `flvGoodFile` decodes successfully and
its recorded per-tag offsets satisfy the recurrence. -/
theorem tag_offsets_chain_witness :
    List.Chain' (fun a b : Nat × Nat => b.1 = a.1 + 11 + a.2 + 4)
      (tagMetas flvGoodRecs) :=
  tag_offsets_chain false ⟨0, 0⟩ ⟨2, 47⟩ flvGoodFile flvGoodRecs rfl

/-! ## C9 amended: tag numbering continues from the incoming counter -/

/-- C9 amended: the output of `parse_flv` depends on the process-wide
counters it inherits: every `Tag No.` record it emits is strictly larger
than the tag counter at call entry (the first tag is numbered
`tagCount + 1`), so a second decode of the same source, starting from the
counter state the first decode left behind, numbers its tags differently. -/
theorem tag_numbers_continue_counter (detail : Bool) (g g' : Globals)
    (data : List Nat) (rs : List Rec)
    (h : parse_flv detail g data = Except.ok (rs, g')) :
    ∀ n, Rec.tagNo n ∈ rs → g.tagCount < n := by
  intro n hn
  unfold parse_flv at h
  obtain ⟨⟨hrs1, g1, c1⟩, hfh, h⟩ := except_bind_ok_inv h
  obtain ⟨⟨trs, g2, c2⟩, hloop, h⟩ := except_bind_ok_inv h
  simp only [except_pure_eq, Except.ok.injEq, Prod.mk.injEq] at h
  obtain ⟨hrs, hg⟩ := h
  obtain ⟨sig, ver, f, doff, v, hsh, hg1⟩ := parse_file_header_shape hfh
  rw [← hrs] at hn
  rcases List.mem_append.mp hn with hm | hm
  · rw [hsh] at hm
    simp only [List.mem_cons, List.not_mem_nil, or_false] at hm
    rcases hm with hm | hm | hm | hm | hm | hm | hm | hm | hm | hm <;>
      exact Rec.noConfusion hm
  · have := parse_flv_loop_tagNos hloop n hm
    rw [hg1] at this
    simp only at this
    omega

/-- Witness for C9 amended: applying the theorem to the first decode of
`flvOneTagFile` at counter state (0, 0) and its `Tag No. 1` record. -/
theorem tag_numbers_continue_counter_witness : (0 : Nat) < 1 :=
  tag_numbers_continue_counter false ⟨0, 0⟩ ⟨1, 30⟩ flvOneTagFile
    flvFirstRunRecs rfl 1 (by decide)

/-! ## C2 amended: PreviousTagSize is echoed verbatim, never verified -/

/-- C2 amended: `parse_pre_tag_size` reads exactly 4 bytes, emits their
big-endian value verbatim as the only record, and advances the cursor by
exactly 4 positions; its behaviour does not depend on any expected tag
length (it does not even receive one), so no verification or `SizeMismatch`
warning can occur and the value is never used to reposition the cursor. -/
theorem prev_tag_size_echoed_only (d : List Nat) (p : Nat)
    (h : p + 4 ≤ d.length) :
    parse_pre_tag_size ⟨d, p⟩ =
      Except.ok ([Rec.prevTagSize (beVal ((d.drop p).take 4))], ⟨d, p + 4⟩) := by
  unfold parse_pre_tag_size
  rw [readExact_eval rfl (by omega) (by rw [List.length_drop]; omega),
    except_ok_bind]
  rfl

/-- Witness for C2 amended at a concrete 4-byte source holding 999. -/
theorem prev_tag_size_echoed_only_witness :
    parse_pre_tag_size ⟨[0, 0, 3, 231], 0⟩ =
      Except.ok ([Rec.prevTagSize
        (beVal ((([0, 0, 3, 231] : List Nat).drop 0).take 4))],
        ⟨[0, 0, 3, 231], 4⟩) :=
  prev_tag_size_echoed_only [0, 0, 3, 231] 0 (by decide)

/-! ## C1 amended: the script loop reads past an empty ECMA array -/

theorem script_loop_eof (fuel : Nat) (d : List Nat) (p : Nat)
    (hlen : d.length < p + 2) :
    parse_script_loop (fuel + 1) ⟨d, p⟩ = Except.error Err.eof := by
  unfold parse_script_loop readExact
  dsimp only
  rw [if_neg (by omega)]
  rfl

/-- C1 amended: the top-level name/value loop of the script-data parser does
not test for the 3-byte end marker.  When the loop is entered with the end
marker `00 00 09` as the only remaining input (an ECMA array with no
entries), it consumes the marker as a zero-length property name plus element
type 9, matches no element branch, iterates again past the array, and fails
with `UnexpectedEndOfInput` instead of returning zero property records. -/
theorem script_loop_overruns_empty_array (fuel : Nat) (d : List Nat) (p : Nat)
    (h : d.drop p = [0, 0, 9]) :
    parse_script_loop (fuel + 2) ⟨d, p⟩ = Except.error Err.eof := by
  have hlen : d.length = p + 3 := by
    have h1 := length_eq_of_drop h (by simp)
    simpa using h1
  have h2 : d.drop (p + 2) = [9] := by
    simpa using drop_add h 2
  have h20 : d.drop (p + 2 + 0) = [9] := by
    simpa using drop_add h2 0
  show parse_script_loop (fuel + 1 + 1) ⟨d, p⟩ = Except.error Err.eof
  unfold parse_script_loop
  rw [readExact_eval h (by omega) (by simp), except_ok_bind]
  dsimp only [List.take]
  rw [show beVal [0, 0] = 0 from rfl]
  rw [readUpTo_eval h2 (by simp) (by omega)]
  dsimp only [List.take]
  rw [readExact_eval h20 (by omega) (by simp), except_ok_bind]
  dsimp only [List.take]
  rw [beVal_one 9]
  rw [if_neg (by decide), if_neg (by decide), if_neg (by decide),
    if_neg (by decide)]
  rw [script_loop_eof fuel d (p + 2 + 0 + 1) (by omega), except_error_bind]

/-- Witness for C1 amended: the loop applied directly to the bare end
marker fails with `UnexpectedEndOfInput`. -/
theorem script_loop_overruns_empty_array_witness :
    parse_script_loop 2 ⟨[0, 0, 9], 0⟩ = Except.error Err.eof :=
  script_loop_overruns_empty_array 0 [0, 0, 9] 0 rfl

/-! ## C7 amended: unknown element types are skipped, not rejected -/

theorem beVal_two (x y : Nat) : beVal [x, y] = x * 256 + y := by
  simp [beVal, List.foldl]

/-- C7 amended: when the script-data loop meets an element whose 1-byte type
tag is outside {0, 1, 2, 3} — including type 12 (LongString) — it raises no
error and reads no value bytes at all: the entry's name and type byte are
consumed and the loop simply continues at the next byte, so the decoder
silently desynchronizes on any element type it does not handle. -/
theorem script_loop_skips_unknown_type (fuel : Nat) (d : List Nat)
    (p hi lo e : Nat) (title rest : List Nat)
    (h : d.drop p = hi :: lo :: (title ++ e :: rest))
    (htl : title.length = hi * 256 + lo)
    (he0 : e ≠ 0) (he1 : e ≠ 1) (he2 : e ≠ 2) (he3 : e ≠ 3) :
    parse_script_loop (fuel + 1) ⟨d, p⟩ =
      parse_script_loop fuel ⟨d, p + 2 + title.length + 1⟩ := by
  have hlen : d.length = p + (title.length + (rest.length + 3)) := by
    have h1 := length_eq_of_drop h (by simp)
    simpa [List.length_append, Nat.add_assoc] using h1
  have h2 : d.drop (p + 2) = title ++ e :: rest := by
    simpa using drop_add h 2
  have h3 : d.drop (p + 2 + title.length) = e :: rest := by
    have h4 := drop_add h2 title.length
    rwa [List.drop_left] at h4
  generalize hres : parse_script_loop fuel ⟨d, p + 2 + title.length + 1⟩ = res
  unfold parse_script_loop
  rw [readExact_eval h (by omega) (by simp only [List.length_cons]; omega),
    except_ok_bind]
  dsimp only [List.take]
  rw [beVal_two hi lo, ← htl]
  rw [readUpTo_eval h2 (by simp only [List.length_append, List.length_cons]; omega)
    (by omega)]
  rw [List.take_left]
  rw [readExact_eval h3 (by omega) (by simp), except_ok_bind]
  dsimp only [List.take]
  rw [beVal_one e]
  rw [if_neg he0, if_neg he1, if_neg he2, if_neg he3]
  rw [hres]
  cases res with
  | error e2 => rw [except_error_bind]
  | ok v =>
    obtain ⟨rs2, cc⟩ := v
    rw [except_ok_bind]
    rfl

/-- Witness for C7 amended: an entry named `x` with element type 12 is
consumed without error and without any value bytes. -/
theorem script_loop_skips_unknown_type_witness :
    parse_script_loop 2 ⟨[0, 1, 120, 12, 9, 9], 0⟩ =
      parse_script_loop 1 ⟨[0, 1, 120, 12, 9, 9],
        0 + 2 + List.length [120] + 1⟩ :=
  script_loop_skips_unknown_type 1 [0, 1, 120, 12, 9, 9] 0 0 1 12 [120] [9, 9]
    rfl (by decide) (by decide) (by decide) (by decide) (by decide)

/-! ## C3 amended: the audio decoder always reads an AAC packet-type byte -/

theorem seekRel_toNat (d : List Nat) (p : Nat) (k : Int)
    (h : 0 ≤ (p : Int) + k) :
    seekRel k ⟨d, p⟩ = Except.ok ⟨d, ((p : Int) + k).toNat⟩ := by
  unfold seekRel
  dsimp only
  rw [if_neg (by omega)]

/-- C3 amended: `parse_audio` reads the byte after the audio flags byte as
an AAC packet type UNCONDITIONALLY — whatever the decoded sound_format is —
and then skips `data_size − 2` bytes, so every audio tag has two payload
bytes consumed and interpreted before the skip; the net cursor advance over
the whole tag is still `11 + data_size` bytes. -/
theorem parse_audio_always_reads_packet_type (g : Globals) (d : List Nat)
    (p tt d2 d1 d0 t2 t1 t0 te s2 s1 s0 fl ab : Nat) (rest : List Nat)
    (nm sfn srn ssn stn an : String)
    (h : d.drop p = tt :: d2 :: d1 :: d0 :: t2 :: t1 :: t0 :: te :: s2 ::
      s1 :: s0 :: fl :: ab :: rest)
    (hnm : tagTypeName tt = some nm)
    (hsf : soundFormatName (fl / 16) = some sfn)
    (hsr : soundRateName (fl / 4 % 4) = some srn)
    (hss : soundSizeName (fl / 2 % 2) = some ssn)
    (hst : soundTypeName (fl % 2) = some stn)
    (hab : aacPacketTypeName ab = some an) :
    parse_audio g ⟨d, p⟩ = Except.ok (
      [Rec.offset g.offset, Rec.tagType nm, Rec.dataSize (beVal [d2, d1, d0]),
       Rec.timestamp (beVal [t2, t1, t0]), Rec.timestampExt te,
       Rec.streamId (beVal [s2, s1, s0]),
       Rec.field "SoundFormat" (Val.name sfn),
       Rec.field "SoundRate" (Val.name srn),
       Rec.field "SoundSize" (Val.name ssn),
       Rec.field "SoundType" (Val.name stn),
       Rec.field "ACC Packet Type" (Val.name an)],
      { g with offset := g.offset + 11 + beVal [d2, d1, d0] + 4 },
      ⟨d, p + 11 + beVal [d2, d1, d0]⟩) := by
  have h11 : d.drop (p + 11) = fl :: ab :: rest := by
    simpa using drop_add h 11
  have h12 : d.drop (p + 11 + 1) = ab :: rest := by
    simpa using drop_add h11 1
  unfold parse_audio
  rw [parse_tag_header_eval g d p tt d2 d1 d0 t2 t1 t0 te s2 s1 s0
    (fl :: ab :: rest) nm h hnm, except_ok_bind]
  dsimp only
  rw [readExact_eval h11 (by omega) (by simp), except_ok_bind]
  dsimp only [List.take]
  rw [beVal_one fl]
  unfold lookupOrKeyError
  rw [hsf]
  dsimp only
  rw [hsr]
  dsimp only
  rw [hss]
  dsimp only
  rw [hst]
  dsimp only
  simp only [except_ok_bind]
  rw [readExact_eval h12 (by omega) (by simp)]
  simp only [except_ok_bind]
  dsimp only [List.take]
  rw [beVal_one ab, hab]
  dsimp only
  simp only [except_ok_bind]
  rw [seekRel_toNat d (p + 11 + 1 + 1) ((beVal [d2, d1, d0] : Int) - 1 - 1)
    (by omega)]
  simp only [except_ok_bind, except_pure_eq]
  simp only [Except.ok.injEq, Prod.mk.injEq, Cursor.mk.injEq, true_and]
  exact ⟨rfl, by omega⟩

/-- Witness for C3 amended: a complete MP3 (non-AAC) audio tag; its second
payload byte (0) is consumed and reported as an AAC packet type. -/
theorem parse_audio_always_reads_packet_type_witness :
    parse_audio ⟨0, 0⟩ ⟨[8, 0, 0, 2, 0, 0, 0, 0, 0, 0, 0, 47, 0], 0⟩ =
      Except.ok (
        [Rec.offset 0, Rec.tagType "Audio", Rec.dataSize (beVal [0, 0, 2]),
         Rec.timestamp (beVal [0, 0, 0]), Rec.timestampExt 0,
         Rec.streamId (beVal [0, 0, 0]),
         Rec.field "SoundFormat" (Val.name "MP3"),
         Rec.field "SoundRate" (Val.name "44-kHz"),
         Rec.field "SoundSize" (Val.name "snd16Bit"),
         Rec.field "SoundType" (Val.name "sndStereo"),
         Rec.field "ACC Packet Type" (Val.name "AAC sequence header")],
        ⟨0, 0 + 11 + beVal [0, 0, 2] + 4⟩,
        ⟨[8, 0, 0, 2, 0, 0, 0, 0, 0, 0, 0, 47, 0], 0 + 11 + beVal [0, 0, 2]⟩) :=
  parse_audio_always_reads_packet_type ⟨0, 0⟩
    [8, 0, 0, 2, 0, 0, 0, 0, 0, 0, 0, 47, 0]
    0 8 0 0 2 0 0 0 0 0 0 0 47 0 []
    "Audio" "MP3" "44-kHz" "snd16Bit" "sndStereo" "AAC sequence header"
    rfl rfl rfl rfl rfl rfl rfl

/-! ## C4 amended: the video decoder always reads the AVC fields -/

/-- C4 amended: `parse_video` reads a 1-byte AVC packet type and a 3-byte
composition time UNCONDITIONALLY — whatever the decoded codec_id is — and
then skips `data_size − 5` bytes, so every video tag has five payload bytes
consumed and interpreted before the skip; the net cursor advance over the
whole tag is still `11 + data_size` bytes (composition time is decoded as an
unsigned integer). -/
theorem parse_video_always_reads_avc_fields (g : Globals) (d : List Nat)
    (p tt d2 d1 d0 t2 t1 t0 te s2 s1 s0 fl ab ct2 ct1 ct0 : Nat)
    (rest : List Nat) (nm : String)
    (h : d.drop p = tt :: d2 :: d1 :: d0 :: t2 :: t1 :: t0 :: te :: s2 ::
      s1 :: s0 :: fl :: ab :: ct2 :: ct1 :: ct0 :: rest)
    (hnm : tagTypeName tt = some nm) :
    parse_video g ⟨d, p⟩ = Except.ok (
      [Rec.offset g.offset, Rec.tagType nm, Rec.dataSize (beVal [d2, d1, d0]),
       Rec.timestamp (beVal [t2, t1, t0]), Rec.timestampExt te,
       Rec.streamId (beVal [s2, s1, s0]),
       Rec.field "FrameType" (Val.name (lookupOrUnknown frameTypeName (fl / 16))),
       Rec.field "CodecID" (Val.name (lookupOrUnknown codecIdName (fl % 16))),
       Rec.field "AVC Packet Type" (Val.name (lookupOrUnknown avcPacketTypeName ab)),
       Rec.field "Compositon Time" (Val.n (beVal [ct2, ct1, ct0]))],
      { g with offset := g.offset + 11 + beVal [d2, d1, d0] + 4 },
      ⟨d, p + 11 + beVal [d2, d1, d0]⟩) := by
  have h11 : d.drop (p + 11) = fl :: ab :: ct2 :: ct1 :: ct0 :: rest := by
    simpa using drop_add h 11
  have h12 : d.drop (p + 11 + 1) = ab :: ct2 :: ct1 :: ct0 :: rest := by
    simpa using drop_add h11 1
  have h13 : d.drop (p + 11 + 1 + 1) = ct2 :: ct1 :: ct0 :: rest := by
    simpa using drop_add h12 1
  unfold parse_video
  rw [parse_tag_header_eval g d p tt d2 d1 d0 t2 t1 t0 te s2 s1 s0
    (fl :: ab :: ct2 :: ct1 :: ct0 :: rest) nm h hnm, except_ok_bind]
  dsimp only
  rw [readExact_eval h11 (by omega) (by simp)]
  simp only [except_ok_bind]
  dsimp only [List.take]
  rw [readExact_eval h12 (by omega) (by simp)]
  simp only [except_ok_bind]
  dsimp only [List.take]
  rw [readExact_eval h13 (by omega) (by simp)]
  simp only [except_ok_bind]
  dsimp only [List.take]
  rw [beVal_one fl, beVal_one ab]
  rw [seekRel_toNat d (p + 11 + 1 + 1 + 3) ((beVal [d2, d1, d0] : Int) - 1 - 4)
    (by omega)]
  simp only [except_ok_bind, except_pure_eq]
  simp only [Except.ok.injEq, Prod.mk.injEq, Cursor.mk.injEq, true_and]
  exact ⟨rfl, by omega⟩

/-- Witness for C4 amended: a complete Sorenson-H.263 (non-AVC) video tag;
its AVC packet type and composition time are nevertheless read and
reported. -/
theorem parse_video_always_reads_avc_fields_witness :
    parse_video ⟨0, 0⟩ ⟨[9, 0, 0, 5, 0, 0, 0, 0, 0, 0, 0, 18, 1, 0, 0, 0], 0⟩ =
      Except.ok (
        [Rec.offset 0, Rec.tagType "Video", Rec.dataSize (beVal [0, 0, 5]),
         Rec.timestamp (beVal [0, 0, 0]), Rec.timestampExt 0,
         Rec.streamId (beVal [0, 0, 0]),
         Rec.field "FrameType" (Val.name (lookupOrUnknown frameTypeName (18 / 16))),
         Rec.field "CodecID" (Val.name (lookupOrUnknown codecIdName (18 % 16))),
         Rec.field "AVC Packet Type" (Val.name (lookupOrUnknown avcPacketTypeName 1)),
         Rec.field "Compositon Time" (Val.n (beVal [0, 0, 0]))],
        ⟨0, 0 + 11 + beVal [0, 0, 5] + 4⟩,
        ⟨[9, 0, 0, 5, 0, 0, 0, 0, 0, 0, 0, 18, 1, 0, 0, 0],
          0 + 11 + beVal [0, 0, 5]⟩) :=
  parse_video_always_reads_avc_fields ⟨0, 0⟩
    [9, 0, 0, 5, 0, 0, 0, 0, 0, 0, 0, 18, 1, 0, 0, 0]
    0 9 0 0 5 0 0 0 0 0 0 0 18 1 0 0 0 [] "Video" rfl rfl

/-! ## C8 amended: an unknown sound_format code crashes the audio decoder -/

/-- C8 amended: when the 4-bit sound_format code of an audio tag is not a
key of the SoundFormat table (codes 12 and 13), `parse_audio` fails with a
`KeyError` carrying that code: no `unknown <code>` label is produced and the
tag is not decoded (only the video decoder wraps its lookups in
`try/except`). -/
theorem parse_audio_unknown_sound_format_errors (g : Globals) (d : List Nat)
    (p tt d2 d1 d0 t2 t1 t0 te s2 s1 s0 fl : Nat) (rest : List Nat)
    (nm : String)
    (h : d.drop p = tt :: d2 :: d1 :: d0 :: t2 :: t1 :: t0 :: te :: s2 ::
      s1 :: s0 :: fl :: rest)
    (hnm : tagTypeName tt = some nm)
    (hsf : soundFormatName (fl / 16) = none) :
    parse_audio g ⟨d, p⟩ = Except.error (Err.keyError (fl / 16)) := by
  have h11 : d.drop (p + 11) = fl :: rest := by
    simpa using drop_add h 11
  unfold parse_audio
  rw [parse_tag_header_eval g d p tt d2 d1 d0 t2 t1 t0 te s2 s1 s0
    (fl :: rest) nm h hnm, except_ok_bind]
  dsimp only
  rw [readExact_eval h11 (by omega) (by simp)]
  simp only [except_ok_bind]
  dsimp only [List.take]
  rw [beVal_one fl]
  unfold lookupOrKeyError
  rw [hsf]
  dsimp only
  simp only [except_error_bind]

/-- Witness for C8 amended: sound_format 12 (flags byte `0xC0`) makes the
audio decoder fail with `KeyError 12`. -/
theorem parse_audio_unknown_sound_format_errors_witness :
    parse_audio ⟨0, 0⟩ ⟨[8, 0, 0, 2, 0, 0, 0, 0, 0, 0, 0, 192, 0], 0⟩ =
      Except.error (Err.keyError (192 / 16)) :=
  parse_audio_unknown_sound_format_errors ⟨0, 0⟩
    [8, 0, 0, 2, 0, 0, 0, 0, 0, 0, 0, 192, 0]
    0 8 0 0 2 0 0 0 0 0 0 0 192 [0] "Audio" rfl rfl rfl

/-! ## C6: an unrecognized tag type is a decode error, not a Script tag -/

theorem parse_tag_header_unknown (g : Globals) (d : List Nat) (p : Nat)
    (tt d2 d1 d0 t2 t1 t0 te s2 s1 s0 : Nat) (rest : List Nat)
    (h : d.drop p =
      tt :: d2 :: d1 :: d0 :: t2 :: t1 :: t0 :: te :: s2 :: s1 :: s0 :: rest)
    (hnone : tagTypeName tt = none) :
    parse_tag_header g ⟨d, p⟩ = Except.error (Err.keyError tt) := by
  have h1 : d.drop (p + 1) =
      d2 :: d1 :: d0 :: t2 :: t1 :: t0 :: te :: s2 :: s1 :: s0 :: rest := by
    simpa using drop_add h 1
  have h2 : d.drop (p + 1 + 3) =
      t2 :: t1 :: t0 :: te :: s2 :: s1 :: s0 :: rest := by
    simpa using drop_add h1 3
  have h3 : d.drop (p + 1 + 3 + 3) = te :: s2 :: s1 :: s0 :: rest := by
    simpa using drop_add h2 3
  have h4 : d.drop (p + 1 + 3 + 3 + 1) = s2 :: s1 :: s0 :: rest := by
    simpa using drop_add h3 1
  unfold parse_tag_header
  rw [readExact_eval h (by omega) (by simp), except_ok_bind]
  dsimp only [List.take]
  rw [readExact_eval h1 (by omega) (by simp), except_ok_bind]
  dsimp only [List.take]
  rw [readExact_eval h2 (by omega) (by simp), except_ok_bind]
  dsimp only [List.take]
  rw [readExact_eval h3 (by omega) (by simp), except_ok_bind]
  dsimp only [List.take]
  rw [readExact_eval h4 (by omega) (by simp), except_ok_bind]
  dsimp only [List.take]
  rw [beVal_one tt]
  unfold lookupOrKeyError
  rw [hnone]
  dsimp only
  simp only [except_error_bind]

/-- C6: a tag whose tag_type byte is outside {8, 9, 18} makes the decoder
fail for that tag with a lookup error (`KeyError` on the tag-type dict)
rather than the tag being silently decoded as a Script tag: the driver does
dispatch unknown types to the script branch, but the tag-header decoder's
type-name lookup fails before any payload is interpreted. -/
theorem unknown_tag_type_is_error (detail : Bool) (g : Globals) (d : List Nat)
    (p b d2 d1 d0 t2 t1 t0 te s2 s1 s0 : Nat) (rest : List Nat)
    (h : d.drop p =
      b :: d2 :: d1 :: d0 :: t2 :: t1 :: t0 :: te :: s2 :: s1 :: s0 :: rest)
    (hb8 : b ≠ 8) (hb9 : b ≠ 9) (hb18 : b ≠ 18) :
    parse_one_tag detail g ⟨d, p⟩ = Except.error (Err.keyError b) := by
  unfold parse_one_tag
  rw [readExact_eval h (by omega) (by simp), except_ok_bind]
  dsimp only [List.take]
  rw [beVal_one b]
  have hs : seekRel (-1) (⟨d, p + 1⟩ : Cursor) = Except.ok ⟨d, p⟩ := by
    unfold seekRel
    dsimp only
    split
    · exfalso
      omega
    · simp only [Except.ok.injEq, Cursor.mk.injEq, true_and]
      omega
  rw [hs, except_ok_bind]
  rw [if_neg hb8, if_neg hb9]
  unfold parse_script
  rw [parse_tag_header_unknown { g with tagCount := g.tagCount + 1 } d p
    b d2 d1 d0 t2 t1 t0 te s2 s1 s0 rest h (tagTypeName_eq_none hb8 hb9 hb18)]
  simp only [except_error_bind]

/-- Witness for C6: tag type 7 (with 11 header bytes available) fails with
`KeyError 7`. -/
theorem unknown_tag_type_is_error_witness :
    parse_one_tag true ⟨0, 0⟩
      ⟨[7, 0, 0, 0, 0, 0, 0, 0, 0, 0, 0], 0⟩ =
      Except.error (Err.keyError 7) :=
  unknown_tag_type_is_error true ⟨0, 0⟩ [7, 0, 0, 0, 0, 0, 0, 0, 0, 0, 0]
    0 7 0 0 0 0 0 0 0 0 0 0 [] rfl (by decide) (by decide) (by decide)

/-! ## C7 counterexample: unknown element types do not fail -/

/-- A Script payload with one property named `x` of element type 5 (outside
{0, 1, 2, 3, 12}), followed by a type-3 entry that ends the loop, the end
marker, and three trailing bytes. -/
def scriptElemType5Payload : List Nat :=
  [2, 0, 0, 8, 0, 0, 0, 1, 0, 1, 120, 5, 0, 0, 3, 0, 0, 0, 0, 0, 0,
   0, 0, 9, 1, 2, 3]

/-- The same payload with element type 12 (LongString) in place of 5. -/
def scriptElemType12Payload : List Nat :=
  [2, 0, 0, 8, 0, 0, 0, 1, 0, 1, 120, 12, 0, 0, 3, 0, 0, 0, 0, 0, 0,
   0, 0, 9, 1, 2, 3]

/-- C7 counterexample: an element type outside {0, 1, 2, 3} — whether 5 or
the supposedly decodable 12 — causes NO failure: the parse succeeds, no
value is read for the entry (its name `x` and value vanish from the output),
and the loop continues at the very next byte.  Type 12 is treated exactly
like any other unrecognized type, not as a 4-byte-length LongString. -/
theorem script_unknown_elem_type_continues_cex :
    parse_script_data ⟨scriptElemType5Payload, 0⟩ = Except.ok (
      [Rec.field "Type" (Val.n 2), Rec.field "String Size" (Val.n 0),
       Rec.field "String" (Val.s []), Rec.field "Type" (Val.n 8),
       Rec.field "Array Size" (Val.n 1), Rec.prop [] (Val.d []),
       Rec.sub [], Rec.sub []],
      ⟨scriptElemType5Payload, 24⟩) ∧
    parse_script_data ⟨scriptElemType12Payload, 0⟩ = Except.ok (
      [Rec.field "Type" (Val.n 2), Rec.field "String Size" (Val.n 0),
       Rec.field "String" (Val.s []), Rec.field "Type" (Val.n 8),
       Rec.field "Array Size" (Val.n 1), Rec.prop [] (Val.d []),
       Rec.sub [], Rec.sub []],
      ⟨scriptElemType12Payload, 24⟩) :=
  ⟨rfl, rfl⟩
